import Mathlib

/-!
Shallow embedding of the `stormworksmeshutils` Stormworks `.mesh` decoder
(`src/lib.rs`, with the error taxonomy of `src/errors.rs`), and proofs of the
specification's claims about it.

Modelling conventions:
* The byte stream (`BufReader<File>` resp. the async `Box<dyn Reader>`) is a
  `List Nat` of bytes; each decoding step consumes a prefix and returns the
  rest of the list, so `read_exact` failing on a short stream becomes a
  `streamFailure` error when fewer bytes remain than requested.
* `seek(SeekFrom::Current(n))` (and the async `seek_forward(n)`) on a file
  never fails for a forward seek, even past end of file, so it is modelled as
  `List.drop n` — a later read past the end then fails, exactly as in Rust.
* Machine integers are `Nat`s produced by little-endian recombination of the
  bytes read (`u16::from_le_bytes` / `u32::from_le_bytes`), hence already
  `< 2^16` resp. `< 2^32`; the one arithmetic operation performed on them,
  the `u32` addition `index_buffer_start + index_buffer_length` in
  `build_sub_meshes`, wraps and is modelled with an explicit `% 2^32`.
* `f32` fields are never inspected or validated by the decoder
  (`f32::from_le_bytes` is a bijection on bit patterns), so they are modelled
  by their raw 32-bit little-endian bit patterns as `Nat`s.
* `String::from_utf8` is modelled by a UTF-8 well-formedness check over the
  byte list (`validUtf8`, the RFC 3629 table Rust implements); a decoded name
  is kept as its validated byte list.
-/

namespace StormworksMeshUtils

/-- The specific error causes of `src/errors.rs` (`SpecificError` impls):
`io::Error` (stream shortfall), `array::TryFromSliceError`,
`IndexIndexOutOfBounds {index, vertex_count}`,
`InvalidStormworksShaderType(u16)`, `TooBigNameLength`,
`string::FromUtf8Error`, and
`SubMeshIndexOutOfBounds {submesh_id, index, relevant_bound}`. -/
inductive SpecificError where
  | streamFailure : SpecificError
  | sliceConversionFailure : SpecificError
  | indexOutOfRange (index : Nat) (vertex_count : Nat) : SpecificError
  | unknownShaderType (raw : Nat) : SpecificError
  | nameTooLong : SpecificError
  | textDecodeFailure : SpecificError
  | subMeshRangeOutOfBounds (submesh_id : Nat) (index : Nat) (relevant_bound : Nat) :
      SpecificError
deriving DecidableEq, Repr

/-- The outward error of `src/errors.rs`: `StormworksParserError`. -/
inductive StormworksParserError where
  | notMesh : StormworksParserError
  | corruptFile (cause : SpecificError) : StormworksParserError
deriving DecidableEq, Repr

/-- `vek`'s `Vec3<f32>`, with each `f32` component kept as its raw 32-bit
little-endian bit pattern. -/
structure Vec3 where
  x : Nat
  y : Nat
  z : Nat
deriving DecidableEq, Repr

/-- `vek`'s `Rgba<u8>`. -/
structure Rgba where
  r : Nat
  g : Nat
  b : Nat
  a : Nat
deriving DecidableEq, Repr

/-- `StormworksMeshVertexRecord` of `src/lib.rs`. -/
structure StormworksMeshVertexRecord where
  position : Vec3
  color : Rgba
  normal : Vec3
deriving DecidableEq, Repr

/-- `StormworksShaderType` of `src/lib.rs`. -/
inductive StormworksShaderType where
  | Opaque : StormworksShaderType
  | Transparent : StormworksShaderType
  | Emissive : StormworksShaderType
  | Lava : StormworksShaderType
deriving DecidableEq, Repr

/-- `StormworksShaderType::from_u16` of `src/lib.rs`. -/
def StormworksShaderType.from_u16 (i : Nat) :
    Except SpecificError StormworksShaderType :=
  match i with
  | 0 => .ok .Opaque
  | 1 => .ok .Transparent
  | 2 => .ok .Emissive
  | 3 => .ok .Lava
  | n + 4 => .error (.unknownShaderType (n + 4))

/-- `StormworksSubMesh` of `src/lib.rs`; `name` is the validated UTF-8 byte
list of the Rust `String`. -/
structure StormworksSubMesh where
  index_buffer_start : Nat
  index_buffer_length : Nat
  shader_id : StormworksShaderType
  name_length_bytes : Nat
  name : List Nat
deriving DecidableEq, Repr

/-- `StormworksMesh` of `src/lib.rs`. -/
structure StormworksMesh where
  vertex_count : Nat
  vertices : List StormworksMeshVertexRecord
  index_count : Nat
  indices : List Nat
  sub_mesh_count : Nat
  sub_meshes : List StormworksSubMesh
deriving DecidableEq, Repr

/-- Little-endian recombination of two bytes: `u16::from_le_bytes`. -/
def u16le (b0 b1 : Nat) : Nat := b0 + 256 * b1

/-- Little-endian recombination of four bytes: `u32::from_le_bytes`. -/
def u32le (b0 b1 b2 b3 : Nat) : Nat :=
  b0 + 256 * b1 + 65536 * b2 + 16777216 * b3

/-- `reader.read_exact` into an `n`-byte buffer: fails with an `io::Error`
when fewer than `n` bytes remain. -/
def readExact (n : Nat) (s : List Nat) :
    Except SpecificError (List Nat × List Nat) :=
  if n ≤ s.length then .ok (s.take n, s.drop n) else .error .streamFailure

/-- `read_u16_from` of `src/lib.rs`: `read_exact` into a 2-byte buffer, then
`u16::from_le_bytes`. -/
def read_u16_from (s : List Nat) : Except SpecificError (Nat × List Nat) :=
  match s with
  | b0 :: b1 :: rest => .ok (u16le b0 b1, rest)
  | _ => .error .streamFailure

/-- `read_u32_from` of `src/lib.rs`: `read_exact` into a 4-byte buffer, then
`u32::from_le_bytes`. -/
def read_u32_from (s : List Nat) : Except SpecificError (Nat × List Nat) :=
  match s with
  | b0 :: b1 :: b2 :: b3 :: rest => .ok (u32le b0 b1 b2 b3, rest)
  | _ => .error .streamFailure

/-- `seek(SeekFrom::Current(n))` for `n ≥ 0` on a file: moves the cursor
forward, never failing (a position past end of file is legal). -/
def seek_forward (n : Nat) (s : List Nat) : List Nat := s.drop n

/-- `build_vertex_record` of `src/lib.rs`: one `read_exact` of the fixed
28-byte block, then positional slicing — bytes 0–11 three little-endian `f32`
position components, bytes 12–15 the RGBA color bytes, bytes 16–27 three
little-endian `f32` normal components. -/
def build_vertex_record (s : List Nat) :
    Except SpecificError (StormworksMeshVertexRecord × List Nat) :=
  match readExact 28 s with
  | .error e => .error e
  | .ok (b, rest) =>
    .ok (⟨⟨u32le (b.getD 0 0) (b.getD 1 0) (b.getD 2 0) (b.getD 3 0),
           u32le (b.getD 4 0) (b.getD 5 0) (b.getD 6 0) (b.getD 7 0),
           u32le (b.getD 8 0) (b.getD 9 0) (b.getD 10 0) (b.getD 11 0)⟩,
          ⟨b.getD 12 0, b.getD 13 0, b.getD 14 0, b.getD 15 0⟩,
          ⟨u32le (b.getD 16 0) (b.getD 17 0) (b.getD 18 0) (b.getD 19 0),
           u32le (b.getD 20 0) (b.getD 21 0) (b.getD 22 0) (b.getD 23 0),
           u32le (b.getD 24 0) (b.getD 25 0) (b.getD 26 0) (b.getD 27 0)⟩⟩,
         rest)

/-- `build_vertices` of `src/lib.rs`: `vertex_count` vertex records in file
order. -/
def build_vertices (s : List Nat) (vertex_count : Nat) :
    Except SpecificError (List StormworksMeshVertexRecord × List Nat) :=
  match vertex_count with
  | 0 => .ok ([], s)
  | n + 1 =>
    match build_vertex_record s with
    | .error e => .error e
    | .ok (v, s₁) =>
      match build_vertices s₁ n with
      | .error e => .error e
      | .ok (vs, s₂) => .ok (v :: vs, s₂)

/-- Loop body of `build_indices` of `src/lib.rs`, with the remaining trip
count `count` and the current loop ordinal `i` explicit: each iteration reads
one u16, zero-extends it (the `as u32` is the identity on the `Nat` value),
and fails with `IndexIndexOutOfBounds {index: i, vertex_count}` when
`index >= vertex_count`. -/
def buildIndicesFrom (vertex_count : Nat) :
    Nat → Nat → List Nat → Except SpecificError (List Nat × List Nat)
  | 0, _, s => .ok ([], s)
  | count + 1, i, s =>
    match read_u16_from s with
    | .error e => .error e
    | .ok (index, s₁) =>
      if index ≥ vertex_count then
        .error (.indexOutOfRange i vertex_count)
      else
        match buildIndicesFrom vertex_count count (i + 1) s₁ with
        | .error e => .error e
        | .ok (rest, s₂) => .ok (index :: rest, s₂)

/-- `build_indices` of `src/lib.rs`: the loop `for i in 0..index_count`. -/
def build_indices (s : List Nat) (index_count vertex_count : Nat) :
    Except SpecificError (List Nat × List Nat) :=
  buildIndicesFrom vertex_count index_count 0 s

/-- Whether a byte is a UTF-8 continuation byte `0x80..=0xBF`. -/
def isUtf8Cont (b : Nat) : Bool := 128 ≤ b && b ≤ 191

/-- UTF-8 well-formedness of a byte list, per the RFC 3629 table that Rust's
`String::from_utf8` validates: ASCII, 2-byte leads `0xC2..=0xDF`, 3-byte
leads `0xE0..=0xEF` with the overlong (`0xE0`) and surrogate (`0xED`)
restrictions, 4-byte leads `0xF0..=0xF4` with the overlong (`0xF0`) and
out-of-range (`0xF4`) restrictions. -/
def validUtf8 : List Nat → Bool
  | [] => true
  | b :: rest =>
    if b ≤ 127 then validUtf8 rest
    else if 194 ≤ b && b ≤ 223 then
      match rest with
      | c1 :: r => isUtf8Cont c1 && validUtf8 r
      | [] => false
    else if b = 224 then
      match rest with
      | c1 :: c2 :: r => (160 ≤ c1 && c1 ≤ 191) && isUtf8Cont c2 && validUtf8 r
      | _ => false
    else if 225 ≤ b && b ≤ 236 then
      match rest with
      | c1 :: c2 :: r => isUtf8Cont c1 && isUtf8Cont c2 && validUtf8 r
      | _ => false
    else if b = 237 then
      match rest with
      | c1 :: c2 :: r => (128 ≤ c1 && c1 ≤ 159) && isUtf8Cont c2 && validUtf8 r
      | _ => false
    else if 238 ≤ b && b ≤ 239 then
      match rest with
      | c1 :: c2 :: r => isUtf8Cont c1 && isUtf8Cont c2 && validUtf8 r
      | _ => false
    else if b = 240 then
      match rest with
      | c1 :: c2 :: c3 :: r =>
        (144 ≤ c1 && c1 ≤ 191) && isUtf8Cont c2 && isUtf8Cont c3 && validUtf8 r
      | _ => false
    else if 241 ≤ b && b ≤ 243 then
      match rest with
      | c1 :: c2 :: c3 :: r =>
        isUtf8Cont c1 && isUtf8Cont c2 && isUtf8Cont c3 && validUtf8 r
      | _ => false
    else if b = 244 then
      match rest with
      | c1 :: c2 :: c3 :: r =>
        (128 ≤ c1 && c1 ≤ 143) && isUtf8Cont c2 && isUtf8Cont c3 && validUtf8 r
      | _ => false
    else false

/-- `String::from_utf8(name_buf)`: the byte list when it is valid UTF-8, a
`FromUtf8Error` otherwise. -/
def string_from_utf8 (bs : List Nat) : Except SpecificError (List Nat) :=
  if validUtf8 bs then .ok bs else .error .textDecodeFailure

/-- `build_sub_mesh` of `src/lib.rs`: `index_buffer_start` u32,
`index_buffer_length` u32, 2 reserved bytes skipped, `shader_id` u16 through
`StormworksShaderType::from_u16`, `4*3+4*3+2 = 26` reserved bytes skipped,
`name_length_bytes` u16 (rejected above 1000 before any name byte is read),
`name_length_bytes` raw name bytes decoded as UTF-8, and `4*3 = 12` reserved
bytes skipped. -/
def build_sub_mesh (s : List Nat) :
    Except SpecificError (StormworksSubMesh × List Nat) :=
  match read_u32_from s with
  | .error e => .error e
  | .ok (index_buffer_start, s₁) =>
    match read_u32_from s₁ with
    | .error e => .error e
    | .ok (index_buffer_length, s₂) =>
      let s₃ := seek_forward 2 s₂
      match read_u16_from s₃ with
      | .error e => .error e
      | .ok (shader_raw, s₄) =>
        match StormworksShaderType.from_u16 shader_raw with
        | .error e => .error e
        | .ok (shader_id) =>
          let s₅ := seek_forward 26 s₄
          match read_u16_from s₅ with
          | .error e => .error e
          | .ok (name_length_bytes, s₆) =>
            if name_length_bytes > 1000 then .error .nameTooLong
            else
              match readExact name_length_bytes s₆ with
              | .error e => .error e
              | .ok (name_buf, s₇) =>
                match string_from_utf8 name_buf with
                | .error e => .error e
                | .ok (name) =>
                  let s₈ := seek_forward 12 s₇
                  .ok (⟨index_buffer_start, index_buffer_length, shader_id,
                        name_length_bytes, name⟩, s₈)

/-- The wrapping `u32` addition
`sub_mesh.index_buffer_start + sub_mesh.index_buffer_length` performed by
`build_sub_meshes`: both operands are `< 2^32`, the sum is reduced
`% 2^32`. -/
def u32add (a b : Nat) : Nat := (a + b) % 4294967296

/-- Loop body of `build_sub_meshes` of `src/lib.rs` with the remaining trip
count and the current loop ordinal `i` explicit: decode one sub-mesh, then
fail with `SubMeshIndexOutOfBounds {submesh_id: i, index, relevant_bound}`
when `index_buffer_start > index_count` (carrying `index_buffer_start`) or
when the wrapping sum `index_buffer_start + index_buffer_length` exceeds
`index_count` (carrying that sum). -/
def buildSubMeshesFrom (index_count : Nat) :
    Nat → Nat → List Nat → Except SpecificError (List StormworksSubMesh × List Nat)
  | 0, _, s => .ok ([], s)
  | count + 1, i, s =>
    match build_sub_mesh s with
    | .error e => .error e
    | .ok (sub_mesh, s₁) =>
      if sub_mesh.index_buffer_start > index_count then
        .error (.subMeshRangeOutOfBounds i sub_mesh.index_buffer_start index_count)
      else if u32add sub_mesh.index_buffer_start sub_mesh.index_buffer_length
          > index_count then
        .error (.subMeshRangeOutOfBounds i
          (u32add sub_mesh.index_buffer_start sub_mesh.index_buffer_length)
          index_count)
      else
        match buildSubMeshesFrom index_count count (i + 1) s₁ with
        | .error e => .error e
        | .ok (rest, s₂) => .ok (sub_mesh :: rest, s₂)

/-- `build_sub_meshes` of `src/lib.rs`: the loop `for i in 0..sub_mesh_count`. -/
def build_sub_meshes (s : List Nat) (sub_mesh_count index_count : Nat) :
    Except SpecificError (List StormworksSubMesh × List Nat) :=
  buildSubMeshesFrom index_count sub_mesh_count 0 s

/-- The magic bytes `b"mesh"` = `[0x6D, 0x65, 0x73, 0x68]`. -/
def magicBytes : List Nat := [109, 101, 115, 104]

/-- `build_stormworks_mesh` of `src/lib.rs`: magic check (mismatch is the
distinct `NotMesh` outcome), 4 reserved bytes skipped, `vertex_count` u16
widened to u32, 4 reserved bytes skipped, vertices, `index_count` u32,
indices, `sub_mesh_count` u16 widened to u32, sub-meshes; every specific
error propagates wrapped as `CorruptFile`. -/
def build_stormworks_mesh (s : List Nat) :
    Except StormworksParserError StormworksMesh :=
  match readExact 4 s with
  | .error e => .error (.corruptFile e)
  | .ok (filetypemarker, s₀) =>
    if filetypemarker ≠ magicBytes then .error .notMesh
    else
      let s₁ := seek_forward 4 s₀
      match read_u16_from s₁ with
      | .error e => .error (.corruptFile e)
      | .ok (vertex_count, s₂) =>
        let s₃ := seek_forward 4 s₂
        match build_vertices s₃ vertex_count with
        | .error e => .error (.corruptFile e)
        | .ok (vertices, s₄) =>
          match read_u32_from s₄ with
          | .error e => .error (.corruptFile e)
          | .ok (index_count, s₅) =>
            match build_indices s₅ index_count vertex_count with
            | .error e => .error (.corruptFile e)
            | .ok (indices, s₆) =>
              match read_u16_from s₆ with
              | .error e => .error (.corruptFile e)
              | .ok (sub_mesh_count, s₇) =>
                match build_sub_meshes s₇ sub_mesh_count index_count with
                | .error e => .error (.corruptFile e)
                | .ok (sub_meshes, _) =>
                  .ok ⟨vertex_count, vertices, index_count, indices,
                       sub_mesh_count, sub_meshes⟩

/-! ### The suspending (async) decode path of `src/lib.rs`

`async_read_u16_from` … `async_build_stormworks_mesh` (`src/lib.rs` lines
213–372) duplicate the blocking pipeline over `Box<dyn Reader>` with
`.await`ed reads and `seek_forward`. Suspension points do not change which
bytes are consumed or in which order, so each function denotes the same
byte-stream transformer; they are embedded separately, traced from the async
source text, and proved equal to the blocking path below. -/

/-- `async_read_u16_from` of `src/lib.rs`. -/
def async_read_u16_from (s : List Nat) : Except SpecificError (Nat × List Nat) :=
  match s with
  | b0 :: b1 :: rest => .ok (u16le b0 b1, rest)
  | _ => .error .streamFailure

/-- `async_read_u32_from` of `src/lib.rs`. -/
def async_read_u32_from (s : List Nat) : Except SpecificError (Nat × List Nat) :=
  match s with
  | b0 :: b1 :: b2 :: b3 :: rest => .ok (u32le b0 b1 b2 b3, rest)
  | _ => .error .streamFailure

/-- `async_build_vertex_record` of `src/lib.rs`. -/
def async_build_vertex_record (s : List Nat) :
    Except SpecificError (StormworksMeshVertexRecord × List Nat) :=
  match readExact 28 s with
  | .error e => .error e
  | .ok (b, rest) =>
    .ok (⟨⟨u32le (b.getD 0 0) (b.getD 1 0) (b.getD 2 0) (b.getD 3 0),
           u32le (b.getD 4 0) (b.getD 5 0) (b.getD 6 0) (b.getD 7 0),
           u32le (b.getD 8 0) (b.getD 9 0) (b.getD 10 0) (b.getD 11 0)⟩,
          ⟨b.getD 12 0, b.getD 13 0, b.getD 14 0, b.getD 15 0⟩,
          ⟨u32le (b.getD 16 0) (b.getD 17 0) (b.getD 18 0) (b.getD 19 0),
           u32le (b.getD 20 0) (b.getD 21 0) (b.getD 22 0) (b.getD 23 0),
           u32le (b.getD 24 0) (b.getD 25 0) (b.getD 26 0) (b.getD 27 0)⟩⟩,
         rest)

/-- `async_build_vertices` of `src/lib.rs`. -/
def async_build_vertices (s : List Nat) (vertex_count : Nat) :
    Except SpecificError (List StormworksMeshVertexRecord × List Nat) :=
  match vertex_count with
  | 0 => .ok ([], s)
  | n + 1 =>
    match async_build_vertex_record s with
    | .error e => .error e
    | .ok (v, s₁) =>
      match async_build_vertices s₁ n with
      | .error e => .error e
      | .ok (vs, s₂) => .ok (v :: vs, s₂)

/-- Loop body of `async_build_indices` of `src/lib.rs`. -/
def asyncBuildIndicesFrom (vertex_count : Nat) :
    Nat → Nat → List Nat → Except SpecificError (List Nat × List Nat)
  | 0, _, s => .ok ([], s)
  | count + 1, i, s =>
    match async_read_u16_from s with
    | .error e => .error e
    | .ok (index, s₁) =>
      if index ≥ vertex_count then
        .error (.indexOutOfRange i vertex_count)
      else
        match asyncBuildIndicesFrom vertex_count count (i + 1) s₁ with
        | .error e => .error e
        | .ok (rest, s₂) => .ok (index :: rest, s₂)

/-- `async_build_indices` of `src/lib.rs`. -/
def async_build_indices (s : List Nat) (index_count vertex_count : Nat) :
    Except SpecificError (List Nat × List Nat) :=
  asyncBuildIndicesFrom vertex_count index_count 0 s

/-- `async_build_sub_mesh` of `src/lib.rs`. -/
def async_build_sub_mesh (s : List Nat) :
    Except SpecificError (StormworksSubMesh × List Nat) :=
  match async_read_u32_from s with
  | .error e => .error e
  | .ok (index_buffer_start, s₁) =>
    match async_read_u32_from s₁ with
    | .error e => .error e
    | .ok (index_buffer_length, s₂) =>
      let s₃ := seek_forward 2 s₂
      match async_read_u16_from s₃ with
      | .error e => .error e
      | .ok (shader_raw, s₄) =>
        match StormworksShaderType.from_u16 shader_raw with
        | .error e => .error e
        | .ok (shader_id) =>
          let s₅ := seek_forward 26 s₄
          match async_read_u16_from s₅ with
          | .error e => .error e
          | .ok (name_length_bytes, s₆) =>
            if name_length_bytes > 1000 then .error .nameTooLong
            else
              match readExact name_length_bytes s₆ with
              | .error e => .error e
              | .ok (name_buf, s₇) =>
                match string_from_utf8 name_buf with
                | .error e => .error e
                | .ok (name) =>
                  let s₈ := seek_forward 12 s₇
                  .ok (⟨index_buffer_start, index_buffer_length, shader_id,
                        name_length_bytes, name⟩, s₈)

/-- Loop body of `async_build_sub_meshes` of `src/lib.rs`. -/
def asyncBuildSubMeshesFrom (index_count : Nat) :
    Nat → Nat → List Nat → Except SpecificError (List StormworksSubMesh × List Nat)
  | 0, _, s => .ok ([], s)
  | count + 1, i, s =>
    match async_build_sub_mesh s with
    | .error e => .error e
    | .ok (sub_mesh, s₁) =>
      if sub_mesh.index_buffer_start > index_count then
        .error (.subMeshRangeOutOfBounds i sub_mesh.index_buffer_start index_count)
      else if u32add sub_mesh.index_buffer_start sub_mesh.index_buffer_length
          > index_count then
        .error (.subMeshRangeOutOfBounds i
          (u32add sub_mesh.index_buffer_start sub_mesh.index_buffer_length)
          index_count)
      else
        match asyncBuildSubMeshesFrom index_count count (i + 1) s₁ with
        | .error e => .error e
        | .ok (rest, s₂) => .ok (sub_mesh :: rest, s₂)

/-- `async_build_sub_meshes` of `src/lib.rs`. -/
def async_build_sub_meshes (s : List Nat) (sub_mesh_count index_count : Nat) :
    Except SpecificError (List StormworksSubMesh × List Nat) :=
  asyncBuildSubMeshesFrom index_count sub_mesh_count 0 s

/-- `async_build_stormworks_mesh` of `src/lib.rs`. -/
def async_build_stormworks_mesh (s : List Nat) :
    Except StormworksParserError StormworksMesh :=
  match readExact 4 s with
  | .error e => .error (.corruptFile e)
  | .ok (filetypemarker, s₀) =>
    if filetypemarker ≠ magicBytes then .error .notMesh
    else
      let s₁ := seek_forward 4 s₀
      match async_read_u16_from s₁ with
      | .error e => .error (.corruptFile e)
      | .ok (vertex_count, s₂) =>
        let s₃ := seek_forward 4 s₂
        match async_build_vertices s₃ vertex_count with
        | .error e => .error (.corruptFile e)
        | .ok (vertices, s₄) =>
          match async_read_u32_from s₄ with
          | .error e => .error (.corruptFile e)
          | .ok (index_count, s₅) =>
            match async_build_indices s₅ index_count vertex_count with
            | .error e => .error (.corruptFile e)
            | .ok (indices, s₆) =>
              match async_read_u16_from s₆ with
              | .error e => .error (.corruptFile e)
              | .ok (sub_mesh_count, s₇) =>
                match async_build_sub_meshes s₇ sub_mesh_count index_count with
                | .error e => .error (.corruptFile e)
                | .ok (sub_meshes, _) =>
                  .ok ⟨vertex_count, vertices, index_count, indices,
                       sub_mesh_count, sub_meshes⟩

/-! ### Concrete byte streams used as test inputs

Laid out per the format: magic, 4 reserved, `vertex_count` u16, 4 reserved,
28-byte vertex records, `index_count` u32, u16 indices, `sub_mesh_count` u16,
then sub-mesh records (start u32, length u32, 2 reserved, shader u16,
26 reserved, name-length u16, name, 12 reserved). -/

/-- Valid magic, all three counts zero, correctly sized reserved fields. -/
def emptyMeshInput : List Nat :=
  [109, 101, 115, 104] ++ [0, 0, 0, 0] ++ [0, 0] ++ [0, 0, 0, 0] ++
  [0, 0, 0, 0] ++ [0, 0]

/-- A wrong 4-byte prefix (`"mesx"`) followed by 100 arbitrary bytes. -/
def mesxInput : List Nat := [109, 101, 115, 120] ++ List.replicate 100 7

/-- Valid magic, `vertex_count = 1`, one zero vertex record,
`index_count = 1`, and the single index value `1` (equal to `vertex_count`,
not less). -/
def badIndexInput : List Nat :=
  [109, 101, 115, 104] ++ [0, 0, 0, 0] ++ [1, 0] ++ [0, 0, 0, 0] ++
  List.replicate 28 0 ++ [1, 0, 0, 0] ++ [1, 0]

/-- Valid magic, `vertex_count = 0`, `index_count = 1`, with the first index
present. -/
def zeroVertexInput : List Nat :=
  [109, 101, 115, 104] ++ [0, 0, 0, 0] ++ [0, 0] ++ [0, 0, 0, 0] ++
  [1, 0, 0, 0] ++ [0, 0]

/-- A full mesh whose one sub-mesh declares `index_buffer_start = 1` and
`index_buffer_length = 4294967295 = 2^32 - 1` against `index_count = 1`: the
wrapping `u32` sum is `0 ≤ 1`, so both range checks pass although the exact
sum `2^32` exceeds `index_count`. -/
def overflowSubMeshInput : List Nat :=
  [109, 101, 115, 104] ++ [0, 0, 0, 0] ++ [1, 0] ++ [0, 0, 0, 0] ++
  List.replicate 28 0 ++ [1, 0, 0, 0] ++ [0, 0] ++ [1, 0] ++
  [1, 0, 0, 0] ++ [255, 255, 255, 255] ++ [0, 0] ++ [0, 0] ++
  List.replicate 26 0 ++ [0, 0] ++ List.replicate 12 0

/-- The `StormworksMesh` value `overflowSubMeshInput` decodes to. -/
def overflowSubMeshResult : StormworksMesh :=
  ⟨1, [⟨⟨0, 0, 0⟩, ⟨0, 0, 0, 0⟩, ⟨0, 0, 0⟩⟩], 1, [0], 1,
   [⟨1, 4294967295, .Opaque, 0, []⟩]⟩

/-- One sub-mesh record with `start = 5`, `length = 10` (validated against a
global `index_count` of 12 in the theorems that use it). -/
def rangeSubMeshRecord : List Nat :=
  [5, 0, 0, 0] ++ [10, 0, 0, 0] ++ [0, 0] ++ [0, 0] ++
  List.replicate 26 0 ++ [0, 0] ++ List.replicate 12 0

/-- One sub-mesh record prefix whose `shader_id` field holds the raw value
9. -/
def shader9Record : List Nat :=
  [0, 0, 0, 0] ++ [0, 0, 0, 0] ++ [0, 0] ++ [9, 0]

/-- One sub-mesh record of exactly 40 bytes declaring
`name_length_bytes = 1001`: the stream holds no name bytes at all. -/
def nameTooLongRecord : List Nat :=
  [0, 0, 0, 0] ++ [0, 0, 0, 0] ++ [0, 0] ++ [0, 0] ++
  List.replicate 26 0 ++ [233, 3]

/-- One sub-mesh record declaring `name_length_bytes = 1000` followed by 1000
bytes of ASCII `'a'` and the 12 reserved trailing bytes. -/
def name1000Record : List Nat :=
  [0, 0, 0, 0] ++ [0, 0, 0, 0] ++ [0, 0] ++ [0, 0] ++
  List.replicate 26 0 ++ [232, 3] ++ List.replicate 1000 97 ++
  List.replicate 12 0

/-- One sub-mesh record declaring a 1-byte name whose byte `0xFF` is not
valid UTF-8. -/
def badUtf8Record : List Nat :=
  [0, 0, 0, 0] ++ [0, 0, 0, 0] ++ [0, 0] ++ [0, 0] ++
  List.replicate 26 0 ++ [1, 0] ++ [255]

/-- A 28-byte vertex record whose position-x and normal-z bit patterns are
the quiet `f32` NaN `0x7FC00000` and whose color is (1,2,3,4). -/
def nanVertexRecord : List Nat :=
  [0, 0, 192, 127] ++ [0, 0, 0, 0] ++ [0, 0, 0, 0] ++ [1, 2, 3, 4] ++
  [0, 0, 0, 0] ++ [0, 0, 0, 0] ++ [0, 0, 192, 127]

/-- One complete 55-byte sub-mesh record: `start = 5`, `length = 7` (a value
an end-offset reading would instead take to be `7 - 5 = 2`), shader 1,
3-byte name `"abc"`. -/
def lengthNotEndRecord : List Nat :=
  [5, 0, 0, 0] ++ [7, 0, 0, 0] ++ [0, 0] ++ [1, 0] ++
  List.replicate 26 0 ++ [3, 0] ++ [97, 98, 99] ++ List.replicate 12 0

/-! ### Helper lemmas about the byte primitives -/

theorem getD_drop (s : List Nat) (n i : Nat) :
    (s.drop n).getD i 0 = s.getD (n + i) 0 := by
  simp [List.getD_eq_getElem?_getD, List.getElem?_drop]

theorem getD_take (s : List Nat) {n i : Nat} (h : i < n) :
    (s.take n).getD i 0 = s.getD i 0 := by
  simp [List.getD_eq_getElem?_getD, List.getElem?_take, h]

theorem readExact_ok_iff {n : Nat} {s : List Nat} {p : List Nat × List Nat} :
    readExact n s = .ok p ↔ n ≤ s.length ∧ p = (s.take n, s.drop n) := by
  unfold readExact
  split
  · rename_i h
    simp only [Except.ok.injEq]
    exact ⟨fun he => ⟨h, he.symm⟩, fun he => he.2.symm⟩
  · simp_all

theorem read_u16_from_ok_iff {s : List Nat} {v : Nat} {r : List Nat} :
    read_u16_from s = .ok (v, r) ↔
      2 ≤ s.length ∧ v = u16le (s.getD 0 0) (s.getD 1 0) ∧ r = s.drop 2 := by
  match s with
  | [] => simp [read_u16_from]
  | [b0] => simp [read_u16_from]
  | b0 :: b1 :: rest =>
    simp only [read_u16_from, Except.ok.injEq, Prod.mk.injEq, List.getD_cons_zero,
      List.getD_cons_succ, List.drop_succ_cons, List.drop_zero, List.length_cons]
    constructor
    · rintro ⟨h1, h2⟩
      exact ⟨by omega, h1.symm, h2.symm⟩
    · rintro ⟨_, h1, h2⟩
      exact ⟨h1.symm, h2.symm⟩

theorem read_u16_from_eq {s : List Nat} (h : 2 ≤ s.length) :
    read_u16_from s = .ok (u16le (s.getD 0 0) (s.getD 1 0), s.drop 2) :=
  read_u16_from_ok_iff.mpr ⟨h, rfl, rfl⟩

theorem read_u32_from_ok_iff {s : List Nat} {v : Nat} {r : List Nat} :
    read_u32_from s = .ok (v, r) ↔
      4 ≤ s.length ∧
      v = u32le (s.getD 0 0) (s.getD 1 0) (s.getD 2 0) (s.getD 3 0) ∧
      r = s.drop 4 := by
  match s with
  | [] => simp [read_u32_from]
  | [b0] => simp [read_u32_from]
  | [b0, b1] => simp [read_u32_from]
  | [b0, b1, b2] => simp [read_u32_from]
  | b0 :: b1 :: b2 :: b3 :: rest =>
    simp only [read_u32_from, Except.ok.injEq, Prod.mk.injEq, List.getD_cons_zero,
      List.getD_cons_succ, List.drop_succ_cons, List.drop_zero, List.length_cons]
    constructor
    · rintro ⟨h1, h2⟩
      exact ⟨by omega, h1.symm, h2.symm⟩
    · rintro ⟨_, h1, h2⟩
      exact ⟨h1.symm, h2.symm⟩

theorem read_u32_from_eq {s : List Nat} (h : 4 ≤ s.length) :
    read_u32_from s = .ok
      (u32le (s.getD 0 0) (s.getD 1 0) (s.getD 2 0) (s.getD 3 0), s.drop 4) :=
  read_u32_from_ok_iff.mpr ⟨h, rfl, rfl⟩

/-! ### Helper lemmas about the vertex decoder -/

theorem build_vertex_record_eq {s : List Nat} (h : 28 ≤ s.length) :
    build_vertex_record s = .ok
      (⟨⟨u32le (s.getD 0 0) (s.getD 1 0) (s.getD 2 0) (s.getD 3 0),
         u32le (s.getD 4 0) (s.getD 5 0) (s.getD 6 0) (s.getD 7 0),
         u32le (s.getD 8 0) (s.getD 9 0) (s.getD 10 0) (s.getD 11 0)⟩,
        ⟨s.getD 12 0, s.getD 13 0, s.getD 14 0, s.getD 15 0⟩,
        ⟨u32le (s.getD 16 0) (s.getD 17 0) (s.getD 18 0) (s.getD 19 0),
         u32le (s.getD 20 0) (s.getD 21 0) (s.getD 22 0) (s.getD 23 0),
         u32le (s.getD 24 0) (s.getD 25 0) (s.getD 26 0) (s.getD 27 0)⟩⟩,
       s.drop 28) := by
  unfold build_vertex_record readExact
  rw [if_pos h]
  simp only [getD_take (s := s) (by norm_num : (0:Nat) < 28),
    getD_take (s := s) (by norm_num : (1:Nat) < 28),
    getD_take (s := s) (by norm_num : (2:Nat) < 28),
    getD_take (s := s) (by norm_num : (3:Nat) < 28),
    getD_take (s := s) (by norm_num : (4:Nat) < 28),
    getD_take (s := s) (by norm_num : (5:Nat) < 28),
    getD_take (s := s) (by norm_num : (6:Nat) < 28),
    getD_take (s := s) (by norm_num : (7:Nat) < 28),
    getD_take (s := s) (by norm_num : (8:Nat) < 28),
    getD_take (s := s) (by norm_num : (9:Nat) < 28),
    getD_take (s := s) (by norm_num : (10:Nat) < 28),
    getD_take (s := s) (by norm_num : (11:Nat) < 28),
    getD_take (s := s) (by norm_num : (12:Nat) < 28),
    getD_take (s := s) (by norm_num : (13:Nat) < 28),
    getD_take (s := s) (by norm_num : (14:Nat) < 28),
    getD_take (s := s) (by norm_num : (15:Nat) < 28),
    getD_take (s := s) (by norm_num : (16:Nat) < 28),
    getD_take (s := s) (by norm_num : (17:Nat) < 28),
    getD_take (s := s) (by norm_num : (18:Nat) < 28),
    getD_take (s := s) (by norm_num : (19:Nat) < 28),
    getD_take (s := s) (by norm_num : (20:Nat) < 28),
    getD_take (s := s) (by norm_num : (21:Nat) < 28),
    getD_take (s := s) (by norm_num : (22:Nat) < 28),
    getD_take (s := s) (by norm_num : (23:Nat) < 28),
    getD_take (s := s) (by norm_num : (24:Nat) < 28),
    getD_take (s := s) (by norm_num : (25:Nat) < 28),
    getD_take (s := s) (by norm_num : (26:Nat) < 28),
    getD_take (s := s) (by norm_num : (27:Nat) < 28)]

theorem build_vertex_record_ok {s : List Nat} {v : StormworksMeshVertexRecord}
    {r : List Nat} (h : build_vertex_record s = .ok (v, r)) :
    28 ≤ s.length ∧ r = s.drop 28 := by
  unfold build_vertex_record at h
  cases he : readExact 28 s with
  | error e => rw [he] at h; exact absurd h (by simp)
  | ok p =>
    rw [he] at h
    obtain ⟨hlen, hp⟩ := readExact_ok_iff.mp he
    subst hp
    simp only [Except.ok.injEq, Prod.mk.injEq] at h
    exact ⟨hlen, h.2.symm⟩

theorem build_vertices_ok : ∀ {vc : Nat} {s : List Nat}
    {vs : List StormworksMeshVertexRecord} {r : List Nat},
    build_vertices s vc = .ok (vs, r) →
    vs.length = vc ∧ r = s.drop (28 * vc)
  | 0, s, vs, r => by
    intro h
    simp only [build_vertices, Except.ok.injEq, Prod.mk.injEq] at h
    simp [← h.1, ← h.2]
  | vc + 1, s, vs, r => by
    intro h
    unfold build_vertices at h
    cases h₁ : build_vertex_record s with
    | error e => rw [h₁] at h; exact absurd h (by simp)
    | ok p =>
      obtain ⟨v, s₁⟩ := p
      rw [h₁] at h
      dsimp only at h
      obtain ⟨-, hdrop⟩ := build_vertex_record_ok h₁
      cases h₂ : build_vertices s₁ vc with
      | error e => rw [h₂] at h; exact absurd h (by simp)
      | ok q =>
        obtain ⟨vs', s₂⟩ := q
        rw [h₂] at h
        obtain ⟨hlen, hdrop'⟩ := build_vertices_ok h₂
        simp only [Except.ok.injEq, Prod.mk.injEq] at h
        refine ⟨by simp [← h.1, hlen], ?_⟩
        rw [← h.2, hdrop', hdrop, List.drop_drop]
        congr 1
        omega

/-! ### Helper lemmas about the index decoder -/

theorem buildIndicesFrom_ok {vc : Nat} : ∀ {count i : Nat} {s : List Nat}
    {is : List Nat} {r : List Nat},
    buildIndicesFrom vc count i s = .ok (is, r) →
    is.length = count ∧ r = s.drop (2 * count) ∧
    (∀ x ∈ is, x < vc) ∧
    (∀ j, j < count → is.getD j 0 = u16le (s.getD (2 * j) 0) (s.getD (2 * j + 1) 0))
  | 0, i, s, is, r => by
    intro h
    simp only [buildIndicesFrom, Except.ok.injEq, Prod.mk.injEq] at h
    simp [← h.1, ← h.2]
  | count + 1, i, s, is, r => by
    intro h
    unfold buildIndicesFrom at h
    cases h₁ : read_u16_from s with
    | error e => rw [h₁] at h; exact absurd h (by simp)
    | ok p =>
      obtain ⟨index, s₁⟩ := p
      rw [h₁] at h
      dsimp only at h
      obtain ⟨hlen2, hval, hdrop⟩ := read_u16_from_ok_iff.mp h₁
      by_cases hge : index ≥ vc
      · rw [if_pos hge] at h; exact absurd h (by simp)
      · rw [if_neg hge] at h
        cases h₂ : buildIndicesFrom vc count (i + 1) s₁ with
        | error e => rw [h₂] at h; exact absurd h (by simp)
        | ok q =>
          obtain ⟨rest, s₂⟩ := q
          rw [h₂] at h
          dsimp only at h
          obtain ⟨hl, hd, hmem, hpos⟩ := buildIndicesFrom_ok h₂
          simp only [Except.ok.injEq, Prod.mk.injEq] at h
          obtain ⟨his, hr⟩ := h
          subst his; subst hr
          refine ⟨by simp [hl], ?_, ?_, ?_⟩
          · rw [hd, hdrop, List.drop_drop]
            congr 1
            omega
          · intro x hx
            rcases List.mem_cons.mp hx with hx | hx
            · subst hx; omega
            · exact hmem x hx
          · intro j hj
            match j with
            | 0 => simp [hval]
            | j + 1 =>
              have hj' : j < count := by omega
              have := hpos j hj'
              rw [List.getD_cons_succ, this, hdrop, getD_drop, getD_drop]
              have e1 : 2 + 2 * j = 2 * (j + 1) := by omega
              have e2 : 2 + (2 * j + 1) = 2 * (j + 1) + 1 := by omega
              rw [e1, e2]

theorem buildIndicesFrom_err {vc : Nat} : ∀ {j count i : Nat} {s : List Nat},
    j < count →
    2 * j + 2 ≤ s.length →
    (∀ k, k < j → u16le (s.getD (2 * k) 0) (s.getD (2 * k + 1) 0) < vc) →
    vc ≤ u16le (s.getD (2 * j) 0) (s.getD (2 * j + 1) 0) →
    buildIndicesFrom vc count i s = .error (.indexOutOfRange (i + j) vc)
  | 0, count, i, s => by
    intro hj hlen _ hge
    obtain ⟨count, rfl⟩ : ∃ c, count = c + 1 := ⟨count - 1, by omega⟩
    unfold buildIndicesFrom
    rw [read_u16_from_eq (by omega)]
    dsimp only
    rw [if_pos (by simpa using hge)]
    simp
  | j + 1, count, i, s => by
    intro hj hlen hlt hge
    obtain ⟨count, rfl⟩ : ∃ c, count = c + 1 := ⟨count - 1, by omega⟩
    unfold buildIndicesFrom
    rw [read_u16_from_eq (by omega)]
    dsimp only
    rw [if_neg (by simpa using Nat.not_le.mpr (hlt 0 (by omega)))]
    have hrec := @buildIndicesFrom_err vc j count (i + 1) (s.drop 2)
      (by omega)
      (by simp only [List.length_drop]; omega)
      (fun k hk => by
        rw [getD_drop, getD_drop]
        have e1 : 2 + 2 * k = 2 * (k + 1) := by omega
        have e2 : 2 + (2 * k + 1) = 2 * (k + 1) + 1 := by omega
        rw [e1, e2]
        exact hlt (k + 1) (by omega))
      (by
        rw [getD_drop, getD_drop]
        have e1 : 2 + 2 * j = 2 * (j + 1) := by omega
        have e2 : 2 + (2 * j + 1) = 2 * (j + 1) + 1 := by omega
        rw [e1, e2]
        exact hge)
    rw [hrec]
    have : i + 1 + j = i + (j + 1) := by omega
    rw [this]

/-! ### Helper lemmas about the sub-mesh decoder -/

theorem from_u16_err {r : Nat} (h : 4 ≤ r) :
    StormworksShaderType.from_u16 r = .error (.unknownShaderType r) := by
  obtain ⟨n, rfl⟩ : ∃ n, r = n + 4 := ⟨r - 4, by omega⟩
  rfl

theorem from_u16_ok_lt {r : Nat} {sh : StormworksShaderType}
    (h : StormworksShaderType.from_u16 r = .ok sh) : r < 4 := by
  by_contra hge
  rw [from_u16_err (by omega)] at h
  exact absurd h (by simp)

theorem read_u16_step {s : List Nat} {k m : Nat} (hk : k + 2 ≤ m)
    (hm : m ≤ s.length) :
    read_u16_from (s.drop k) =
      .ok (u16le (s.getD k 0) (s.getD (k + 1) 0), s.drop (k + 2)) := by
  have h := read_u16_from_eq (s := s.drop k)
    (by simp only [List.length_drop]; omega)
  rw [h, getD_drop, getD_drop, List.drop_drop]
  simp

theorem read_u32_step {s : List Nat} {k m : Nat} (hk : k + 4 ≤ m)
    (hm : m ≤ s.length) :
    read_u32_from (s.drop k) =
      .ok (u32le (s.getD k 0) (s.getD (k + 1) 0) (s.getD (k + 2) 0)
        (s.getD (k + 3) 0), s.drop (k + 4)) := by
  have h := read_u32_from_eq (s := s.drop k)
    (by simp only [List.length_drop]; omega)
  rw [h, getD_drop, getD_drop, getD_drop, getD_drop, List.drop_drop]
  simp

theorem build_sub_mesh_eq {s : List Nat} {sh : StormworksShaderType}
    (hsh : StormworksShaderType.from_u16 (u16le (s.getD 10 0) (s.getD 11 0)) =
      .ok sh)
    (hn : u16le (s.getD 38 0) (s.getD 39 0) ≤ 1000)
    (hlen : 40 + u16le (s.getD 38 0) (s.getD 39 0) ≤ s.length)
    (hutf : validUtf8 ((s.drop 40).take (u16le (s.getD 38 0) (s.getD 39 0))) =
      true) :
    build_sub_mesh s = .ok
      (⟨u32le (s.getD 0 0) (s.getD 1 0) (s.getD 2 0) (s.getD 3 0),
        u32le (s.getD 4 0) (s.getD 5 0) (s.getD 6 0) (s.getD 7 0),
        sh,
        u16le (s.getD 38 0) (s.getD 39 0),
        (s.drop 40).take (u16le (s.getD 38 0) (s.getD 39 0))⟩,
       s.drop (52 + u16le (s.getD 38 0) (s.getD 39 0))) := by
  have st1 : read_u32_from s = .ok
      (u32le (s.getD 0 0) (s.getD 1 0) (s.getD 2 0) (s.getD 3 0), s.drop 4) :=
    read_u32_from_eq (by omega)
  have st2 : read_u32_from (s.drop 4) = .ok
      (u32le (s.getD 4 0) (s.getD 5 0) (s.getD 6 0) (s.getD 7 0), s.drop 8) := by
    have h := read_u32_step (s := s) (k := 4) (m := 40) (by omega) (by omega)
    simp only [Nat.reduceAdd] at h
    exact h
  have st3 : read_u16_from (seek_forward 2 (s.drop 8)) =
      .ok (u16le (s.getD 10 0) (s.getD 11 0), s.drop 12) := by
    show read_u16_from ((s.drop 8).drop 2) = _
    rw [List.drop_drop]
    exact read_u16_step (k := 10) (m := 40) (by omega) (by omega)
  have st5 : read_u16_from (seek_forward 26 (s.drop 12)) =
      .ok (u16le (s.getD 38 0) (s.getD 39 0), s.drop 40) := by
    show read_u16_from ((s.drop 12).drop 26) = _
    rw [List.drop_drop]
    exact read_u16_step (k := 38) (m := 40) (by omega) (by omega)
  have st6 : readExact (u16le (s.getD 38 0) (s.getD 39 0)) (s.drop 40) =
      .ok ((s.drop 40).take (u16le (s.getD 38 0) (s.getD 39 0)),
           (s.drop 40).drop (u16le (s.getD 38 0) (s.getD 39 0))) := by
    unfold readExact
    rw [if_pos (by simp only [List.length_drop]; omega)]
  have st7 : string_from_utf8
      ((s.drop 40).take (u16le (s.getD 38 0) (s.getD 39 0))) =
      .ok ((s.drop 40).take (u16le (s.getD 38 0) (s.getD 39 0))) := by
    unfold string_from_utf8
    rw [if_pos hutf]
  unfold build_sub_mesh
  rw [st1]
  dsimp only
  rw [st2]
  dsimp only
  rw [st3]
  dsimp only
  rw [hsh]
  dsimp only
  rw [st5]
  dsimp only
  rw [if_neg (by omega)]
  rw [st6]
  dsimp only
  rw [st7]
  dsimp only
  rw [List.drop_drop]
  show _ = Except.ok (_, s.drop (52 + u16le (s.getD 38 0) (s.getD 39 0)))
  rw [show seek_forward 12 (s.drop (40 + u16le (s.getD 38 0) (s.getD 39 0))) =
      s.drop (52 + u16le (s.getD 38 0) (s.getD 39 0)) from by
    show (s.drop _).drop 12 = _
    rw [List.drop_drop]
    congr 1
    omega]

theorem build_sub_mesh_name_too_long {s : List Nat}
    {sh : StormworksShaderType}
    (hsh : StormworksShaderType.from_u16 (u16le (s.getD 10 0) (s.getD 11 0)) =
      .ok sh)
    (hn : 1000 < u16le (s.getD 38 0) (s.getD 39 0))
    (hlen : 40 ≤ s.length) :
    build_sub_mesh s = .error .nameTooLong := by
  have st1 : read_u32_from s = .ok
      (u32le (s.getD 0 0) (s.getD 1 0) (s.getD 2 0) (s.getD 3 0), s.drop 4) :=
    read_u32_from_eq (by omega)
  have st2 : read_u32_from (s.drop 4) = .ok
      (u32le (s.getD 4 0) (s.getD 5 0) (s.getD 6 0) (s.getD 7 0), s.drop 8) := by
    have h := read_u32_step (s := s) (k := 4) (m := 40) (by omega) (by omega)
    simp only [Nat.reduceAdd] at h
    exact h
  have st3 : read_u16_from (seek_forward 2 (s.drop 8)) =
      .ok (u16le (s.getD 10 0) (s.getD 11 0), s.drop 12) := by
    show read_u16_from ((s.drop 8).drop 2) = _
    rw [List.drop_drop]
    exact read_u16_step (k := 10) (m := 40) (by omega) (by omega)
  have st5 : read_u16_from (seek_forward 26 (s.drop 12)) =
      .ok (u16le (s.getD 38 0) (s.getD 39 0), s.drop 40) := by
    show read_u16_from ((s.drop 12).drop 26) = _
    rw [List.drop_drop]
    exact read_u16_step (k := 38) (m := 40) (by omega) (by omega)
  unfold build_sub_mesh
  rw [st1]
  dsimp only
  rw [st2]
  dsimp only
  rw [st3]
  dsimp only
  rw [hsh]
  dsimp only
  rw [st5]
  dsimp only
  rw [if_pos (by omega)]

theorem build_sub_mesh_shader_err {s : List Nat}
    (hraw : 4 ≤ u16le (s.getD 10 0) (s.getD 11 0))
    (hlen : 12 ≤ s.length) :
    build_sub_mesh s =
      .error (.unknownShaderType (u16le (s.getD 10 0) (s.getD 11 0))) := by
  have st1 : read_u32_from s = .ok
      (u32le (s.getD 0 0) (s.getD 1 0) (s.getD 2 0) (s.getD 3 0), s.drop 4) :=
    read_u32_from_eq (by omega)
  have st2 : read_u32_from (s.drop 4) = .ok
      (u32le (s.getD 4 0) (s.getD 5 0) (s.getD 6 0) (s.getD 7 0), s.drop 8) := by
    have h := read_u32_step (s := s) (k := 4) (m := 12) (by omega) (by omega)
    simp only [Nat.reduceAdd] at h
    exact h
  have st3 : read_u16_from (seek_forward 2 (s.drop 8)) =
      .ok (u16le (s.getD 10 0) (s.getD 11 0), s.drop 12) := by
    show read_u16_from ((s.drop 8).drop 2) = _
    rw [List.drop_drop]
    exact read_u16_step (k := 10) (m := 12) (by omega) (by omega)
  unfold build_sub_mesh
  rw [st1]
  dsimp only
  rw [st2]
  dsimp only
  rw [st3]
  dsimp only
  rw [from_u16_err hraw]

theorem build_sub_mesh_utf8_err {s : List Nat} {sh : StormworksShaderType}
    (hsh : StormworksShaderType.from_u16 (u16le (s.getD 10 0) (s.getD 11 0)) =
      .ok sh)
    (hn : u16le (s.getD 38 0) (s.getD 39 0) ≤ 1000)
    (hlen : 40 + u16le (s.getD 38 0) (s.getD 39 0) ≤ s.length)
    (hutf : validUtf8 ((s.drop 40).take (u16le (s.getD 38 0) (s.getD 39 0))) =
      false) :
    build_sub_mesh s = .error .textDecodeFailure := by
  have st1 : read_u32_from s = .ok
      (u32le (s.getD 0 0) (s.getD 1 0) (s.getD 2 0) (s.getD 3 0), s.drop 4) :=
    read_u32_from_eq (by omega)
  have st2 : read_u32_from (s.drop 4) = .ok
      (u32le (s.getD 4 0) (s.getD 5 0) (s.getD 6 0) (s.getD 7 0), s.drop 8) := by
    have h := read_u32_step (s := s) (k := 4) (m := 40) (by omega) (by omega)
    simp only [Nat.reduceAdd] at h
    exact h
  have st3 : read_u16_from (seek_forward 2 (s.drop 8)) =
      .ok (u16le (s.getD 10 0) (s.getD 11 0), s.drop 12) := by
    show read_u16_from ((s.drop 8).drop 2) = _
    rw [List.drop_drop]
    exact read_u16_step (k := 10) (m := 40) (by omega) (by omega)
  have st5 : read_u16_from (seek_forward 26 (s.drop 12)) =
      .ok (u16le (s.getD 38 0) (s.getD 39 0), s.drop 40) := by
    show read_u16_from ((s.drop 12).drop 26) = _
    rw [List.drop_drop]
    exact read_u16_step (k := 38) (m := 40) (by omega) (by omega)
  have st6 : readExact (u16le (s.getD 38 0) (s.getD 39 0)) (s.drop 40) =
      .ok ((s.drop 40).take (u16le (s.getD 38 0) (s.getD 39 0)),
           (s.drop 40).drop (u16le (s.getD 38 0) (s.getD 39 0))) := by
    unfold readExact
    rw [if_pos (by simp only [List.length_drop]; omega)]
  unfold build_sub_mesh
  rw [st1]
  dsimp only
  rw [st2]
  dsimp only
  rw [st3]
  dsimp only
  rw [hsh]
  dsimp only
  rw [st5]
  dsimp only
  rw [if_neg (by omega)]
  rw [st6]
  dsimp only
  unfold string_from_utf8
  rw [if_neg (by simp only [hutf]; exact Bool.false_ne_true)]

theorem build_sub_mesh_ok_inv {s : List Nat} {sm : StormworksSubMesh}
    {r : List Nat} (h : build_sub_mesh s = .ok (sm, r)) :
    StormworksShaderType.from_u16 (u16le (s.getD 10 0) (s.getD 11 0)) =
      .ok sm.shader_id ∧
    sm.name_length_bytes = u16le (s.getD 38 0) (s.getD 39 0) ∧
    sm.name_length_bytes ≤ 1000 := by
  unfold build_sub_mesh at h
  cases h₁ : read_u32_from s with
  | error e => rw [h₁] at h; exact absurd h (by simp)
  | ok p₁ =>
    obtain ⟨A, s₁⟩ := p₁
    rw [h₁] at h
    dsimp only at h
    obtain ⟨hl₁, -, hd₁⟩ := read_u32_from_ok_iff.mp h₁
    cases h₂ : read_u32_from s₁ with
    | error e => rw [h₂] at h; exact absurd h (by simp)
    | ok p₂ =>
      obtain ⟨B, s₂⟩ := p₂
      rw [h₂] at h
      dsimp only at h
      obtain ⟨hl₂, -, hd₂⟩ := read_u32_from_ok_iff.mp h₂
      cases h₃ : read_u16_from (seek_forward 2 s₂) with
      | error e => rw [h₃] at h; exact absurd h (by simp)
      | ok p₃ =>
        obtain ⟨raw, s₄⟩ := p₃
        rw [h₃] at h
        dsimp only at h
        obtain ⟨hl₃, hv₃, hd₃⟩ := read_u16_from_ok_iff.mp h₃
        cases h₄ : StormworksShaderType.from_u16 raw with
        | error e => rw [h₄] at h; exact absurd h (by simp)
        | ok sh =>
          rw [h₄] at h
          dsimp only at h
          cases h₅ : read_u16_from (seek_forward 26 s₄) with
          | error e => rw [h₅] at h; exact absurd h (by simp)
          | ok p₅ =>
            obtain ⟨n, s₆⟩ := p₅
            rw [h₅] at h
            dsimp only at h
            obtain ⟨hl₅, hv₅, hd₅⟩ := read_u16_from_ok_iff.mp h₅
            by_cases hn : n > 1000
            · rw [if_pos hn] at h; exact absurd h (by simp)
            · rw [if_neg hn] at h
              cases h₆ : readExact n s₆ with
              | error e => rw [h₆] at h; exact absurd h (by simp)
              | ok p₆ =>
                obtain ⟨buf, s₇⟩ := p₆
                rw [h₆] at h
                dsimp only at h
                cases h₇ : string_from_utf8 buf with
                | error e => rw [h₇] at h; exact absurd h (by simp)
                | ok name =>
                  rw [h₇] at h
                  dsimp only at h
                  simp only [Except.ok.injEq, Prod.mk.injEq] at h
                  obtain ⟨hsm, -⟩ := h
                  subst hsm
                  have hseek2 : seek_forward 2 s₂ = s.drop 10 := by
                    rw [hd₂, hd₁]
                    show ((s.drop 4).drop 4).drop 2 = _
                    rw [List.drop_drop, List.drop_drop]
                  have hraw : raw = u16le (s.getD 10 0) (s.getD 11 0) := by
                    rw [hseek2] at hv₃
                    rw [getD_drop, getD_drop] at hv₃
                    simp only [Nat.reduceAdd] at hv₃
                    exact hv₃
                  have hseek26 : seek_forward 26 s₄ = s.drop 38 := by
                    rw [hd₃, hseek2]
                    show ((s.drop 10).drop 2).drop 26 = _
                    rw [List.drop_drop, List.drop_drop]
                  have hnval : n = u16le (s.getD 38 0) (s.getD 39 0) := by
                    rw [hseek26] at hv₅
                    rw [getD_drop, getD_drop] at hv₅
                    simp only [Nat.reduceAdd] at hv₅
                    exact hv₅
                  refine ⟨?_, hnval, by simpa using hn⟩
                  rw [← hraw]
                  exact h₄

/-! ### Helper lemmas about the sub-mesh loop -/

theorem buildSubMeshesFrom_ok {ic : Nat} : ∀ {count i : Nat} {s : List Nat}
    {sms : List StormworksSubMesh} {r : List Nat},
    buildSubMeshesFrom ic count i s = .ok (sms, r) →
    sms.length = count ∧
    ∀ sm ∈ sms, sm.index_buffer_start ≤ ic ∧
      u32add sm.index_buffer_start sm.index_buffer_length ≤ ic
  | 0, i, s, sms, r => by
    intro h
    simp only [buildSubMeshesFrom, Except.ok.injEq, Prod.mk.injEq] at h
    simp [← h.1]
  | count + 1, i, s, sms, r => by
    intro h
    unfold buildSubMeshesFrom at h
    cases h₁ : build_sub_mesh s with
    | error e => rw [h₁] at h; exact absurd h (by simp)
    | ok p =>
      obtain ⟨sm, s₁⟩ := p
      rw [h₁] at h
      dsimp only at h
      by_cases hb₁ : sm.index_buffer_start > ic
      · rw [if_pos hb₁] at h; exact absurd h (by simp)
      · rw [if_neg hb₁] at h
        by_cases hb₂ : u32add sm.index_buffer_start sm.index_buffer_length > ic
        · rw [if_pos hb₂] at h; exact absurd h (by simp)
        · rw [if_neg hb₂] at h
          cases h₂ : buildSubMeshesFrom ic count (i + 1) s₁ with
          | error e => rw [h₂] at h; exact absurd h (by simp)
          | ok q =>
            obtain ⟨rest, s₂⟩ := q
            rw [h₂] at h
            dsimp only at h
            obtain ⟨hl, hmem⟩ := buildSubMeshesFrom_ok h₂
            simp only [Except.ok.injEq, Prod.mk.injEq] at h
            obtain ⟨hsms, -⟩ := h
            subst hsms
            refine ⟨by simp [hl], ?_⟩
            intro x hx
            rcases List.mem_cons.mp hx with hx | hx
            · subst hx
              exact ⟨by omega, by omega⟩
            · exact hmem x hx

theorem buildSubMeshesFrom_err {ic : Nat} {i count : Nat} {s : List Nat}
    {sm : StormworksSubMesh} {s₁ : List Nat}
    (h : build_sub_mesh s = .ok (sm, s₁))
    (hviol : ¬ (sm.index_buffer_start ≤ ic ∧
      u32add sm.index_buffer_start sm.index_buffer_length ≤ ic)) :
    buildSubMeshesFrom ic (count + 1) i s = .error
      (.subMeshRangeOutOfBounds i
        (if sm.index_buffer_start > ic then sm.index_buffer_start
         else u32add sm.index_buffer_start sm.index_buffer_length)
        ic) := by
  unfold buildSubMeshesFrom
  rw [h]
  dsimp only
  by_cases hb₁ : sm.index_buffer_start > ic
  · rw [if_pos hb₁, if_pos hb₁]
  · rw [if_neg hb₁, if_neg hb₁]
    have hb₂ : u32add sm.index_buffer_start sm.index_buffer_length > ic := by
      omega
    rw [if_pos hb₂]

/-! ### The master success-inversion of the orchestrator -/

theorem build_stormworks_mesh_ok_inv {s : List Nat} {m : StormworksMesh}
    (h : build_stormworks_mesh s = .ok m) :
    s.take 4 = magicBytes ∧
    m.vertex_count = u16le (s.getD 8 0) (s.getD 9 0) ∧
    m.vertices.length = m.vertex_count ∧
    m.index_count = u32le (s.getD (14 + 28 * m.vertex_count) 0)
      (s.getD (14 + 28 * m.vertex_count + 1) 0)
      (s.getD (14 + 28 * m.vertex_count + 2) 0)
      (s.getD (14 + 28 * m.vertex_count + 3) 0) ∧
    m.indices.length = m.index_count ∧
    (∀ x ∈ m.indices, x < m.vertex_count) ∧
    m.sub_mesh_count =
      u16le (s.getD (14 + 28 * m.vertex_count + 4 + 2 * m.index_count) 0)
        (s.getD (14 + 28 * m.vertex_count + 4 + 2 * m.index_count + 1) 0) ∧
    m.sub_meshes.length = m.sub_mesh_count ∧
    (∀ sm ∈ m.sub_meshes, sm.index_buffer_start ≤ m.index_count ∧
      u32add sm.index_buffer_start sm.index_buffer_length ≤ m.index_count) := by
  unfold build_stormworks_mesh at h
  cases h₀ : readExact 4 s with
  | error e => rw [h₀] at h; exact absurd h (by simp)
  | ok p₀ =>
    obtain ⟨marker, s₀⟩ := p₀
    rw [h₀] at h
    dsimp only at h
    obtain ⟨hl₀, hp₀⟩ := readExact_ok_iff.mp h₀
    have hm₀ : marker = s.take 4 := congrArg Prod.fst hp₀
    have hs₀ : s₀ = s.drop 4 := congrArg Prod.snd hp₀
    by_cases hmagic : marker ≠ magicBytes
    · rw [if_pos hmagic] at h; exact absurd h (by simp)
    · rw [if_neg hmagic] at h
      push_neg at hmagic
      cases h₁ : read_u16_from (seek_forward 4 s₀) with
      | error e => rw [h₁] at h; exact absurd h (by simp)
      | ok p₁ =>
        obtain ⟨vc, s₂⟩ := p₁
        rw [h₁] at h
        dsimp only at h
        obtain ⟨hl₁, hv₁, hd₁⟩ := read_u16_from_ok_iff.mp h₁
        have hseek4 : seek_forward 4 s₀ = s.drop 8 := by
          rw [hs₀]
          show (s.drop 4).drop 4 = _
          rw [List.drop_drop]
        rw [hseek4] at hv₁ hd₁
        rw [getD_drop, getD_drop] at hv₁
        simp only [Nat.reduceAdd] at hv₁
        rw [List.drop_drop] at hd₁
        simp only [Nat.reduceAdd] at hd₁
        cases h₂ : build_vertices (seek_forward 4 s₂) vc with
        | error e => rw [h₂] at h; exact absurd h (by simp)
        | ok p₂ =>
          obtain ⟨vertices, s₄⟩ := p₂
          rw [h₂] at h
          dsimp only at h
          obtain ⟨hvlen, hvdrop⟩ := build_vertices_ok h₂
          have hseek4' : seek_forward 4 s₂ = s.drop 14 := by
            rw [hd₁]
            show (s.drop 10).drop 4 = _
            rw [List.drop_drop]
          rw [hseek4'] at hvdrop
          rw [List.drop_drop] at hvdrop
          cases h₃ : read_u32_from s₄ with
          | error e => rw [h₃] at h; exact absurd h (by simp)
          | ok p₃ =>
            obtain ⟨ic, s₅⟩ := p₃
            rw [h₃] at h
            dsimp only at h
            obtain ⟨hl₃, hv₃, hd₃⟩ := read_u32_from_ok_iff.mp h₃
            rw [hvdrop] at hv₃ hd₃
            rw [getD_drop, getD_drop, getD_drop, getD_drop] at hv₃
            rw [List.drop_drop] at hd₃
            cases h₄ : build_indices s₅ ic vc with
            | error e => rw [h₄] at h; exact absurd h (by simp)
            | ok p₄ =>
              obtain ⟨indices, s₆⟩ := p₄
              rw [h₄] at h
              dsimp only at h
              obtain ⟨hilen, hidrop, himem, -⟩ :=
                buildIndicesFrom_ok (h₄ : buildIndicesFrom vc ic 0 s₅ = _)
              rw [hd₃] at hidrop
              rw [List.drop_drop] at hidrop
              cases h₅ : read_u16_from s₆ with
              | error e => rw [h₅] at h; exact absurd h (by simp)
              | ok p₅ =>
                obtain ⟨smc, s₇⟩ := p₅
                rw [h₅] at h
                dsimp only at h
                obtain ⟨hl₅, hv₅, hd₅⟩ := read_u16_from_ok_iff.mp h₅
                rw [hidrop] at hv₅
                rw [getD_drop, getD_drop] at hv₅
                cases h₆ : build_sub_meshes s₇ smc ic with
                | error e => rw [h₆] at h; exact absurd h (by simp)
                | ok p₆ =>
                  obtain ⟨sub_meshes, s₈⟩ := p₆
                  rw [h₆] at h
                  dsimp only at h
                  obtain ⟨hslen, hsmem⟩ :=
                    buildSubMeshesFrom_ok
                      (h₆ : buildSubMeshesFrom ic smc 0 s₇ = _)
                  simp only [Except.ok.injEq] at h
                  subst h
                  refine ⟨hm₀.symm.trans hmagic, hv₁, hvlen, ?_, hilen, himem,
                    ?_, hslen, hsmem⟩
                  · dsimp only
                    simpa only [Nat.add_zero] using hv₃
                  · dsimp only
                    simpa only [Nat.add_zero] using hv₅

/-! ### Helper lemmas about the magic check -/

theorem build_stormworks_mesh_not_mesh {s : List Nat} (hlen : 4 ≤ s.length)
    (hmagic : s.take 4 ≠ magicBytes) :
    build_stormworks_mesh s = .error .notMesh := by
  unfold build_stormworks_mesh readExact
  rw [if_pos hlen]
  dsimp only
  rw [if_pos hmagic]

theorem build_stormworks_mesh_corrupt_inv {s : List Nat} {e : SpecificError}
    (h : build_stormworks_mesh s = .error (.corruptFile e)) :
    s.length < 4 ∨ s.take 4 = magicBytes := by
  unfold build_stormworks_mesh at h
  cases h₀ : readExact 4 s with
  | error e' =>
    left
    by_contra hge
    push_neg at hge
    unfold readExact at h₀
    rw [if_pos hge] at h₀
    exact absurd h₀ (by simp)
  | ok p =>
    obtain ⟨marker, s₀⟩ := p
    rw [h₀] at h
    dsimp only at h
    obtain ⟨-, hp⟩ := readExact_ok_iff.mp h₀
    by_cases hm : marker ≠ magicBytes
    · rw [if_pos hm] at h
      exact absurd h (by simp)
    · push_neg at hm
      right
      have hp1 : marker = List.take 4 s := congrArg Prod.fst hp
      rw [← hp1]
      exact hm

/-! ### The blocking and suspending paths decode identically -/

theorem async_read_u16_from_eq : async_read_u16_from = read_u16_from := rfl

theorem async_read_u32_from_eq : async_read_u32_from = read_u32_from := rfl

theorem async_build_vertex_record_eq :
    async_build_vertex_record = build_vertex_record := rfl

theorem async_build_sub_mesh_eq : async_build_sub_mesh = build_sub_mesh := rfl

theorem async_build_vertices_eq : async_build_vertices = build_vertices := by
  funext s vc
  induction vc generalizing s with
  | zero => rfl
  | succ n ih =>
    unfold async_build_vertices build_vertices
    rw [async_build_vertex_record_eq]
    cases h : build_vertex_record s with
    | error e => rfl
    | ok p =>
      obtain ⟨v, s₁⟩ := p
      dsimp only
      rw [ih]

theorem asyncBuildIndicesFrom_eq :
    asyncBuildIndicesFrom = buildIndicesFrom := by
  funext vc count
  induction count with
  | zero => funext i s; rfl
  | succ n ih =>
    funext i s
    unfold asyncBuildIndicesFrom buildIndicesFrom
    rw [async_read_u16_from_eq]
    cases h : read_u16_from s with
    | error e => rfl
    | ok p =>
      obtain ⟨index, s₁⟩ := p
      dsimp only
      rw [ih]

theorem async_build_indices_eq : async_build_indices = build_indices := by
  funext s ic vc
  unfold async_build_indices build_indices
  rw [asyncBuildIndicesFrom_eq]

theorem asyncBuildSubMeshesFrom_eq :
    asyncBuildSubMeshesFrom = buildSubMeshesFrom := by
  funext ic count
  induction count with
  | zero => funext i s; rfl
  | succ n ih =>
    funext i s
    unfold asyncBuildSubMeshesFrom buildSubMeshesFrom
    rw [async_build_sub_mesh_eq]
    cases h : build_sub_mesh s with
    | error e => rfl
    | ok p =>
      obtain ⟨sm, s₁⟩ := p
      dsimp only
      rw [ih]

theorem async_build_sub_meshes_eq :
    async_build_sub_meshes = build_sub_meshes := by
  funext s smc ic
  unfold async_build_sub_meshes build_sub_meshes
  rw [asyncBuildSubMeshesFrom_eq]

/-! ### The claims -/

/-- Claim C1, counterexample to the claim as stated: `overflowSubMeshInput`
decodes successfully although its only sub-mesh has
`index_buffer_start + index_buffer_length = 1 + (2^32 - 1) = 2^32`, which as
an unbounded integer exceeds `index_count = 1` — `build_sub_meshes` compares
the wrapping `u32` sum `(1 + 4294967295) % 2^32 = 0`, not the exact sum. -/
theorem claim_C1_counterexample :
    build_stormworks_mesh overflowSubMeshInput = .ok overflowSubMeshResult ∧
    ∃ sm ∈ overflowSubMeshResult.sub_meshes,
      overflowSubMeshResult.index_count <
        sm.index_buffer_start + sm.index_buffer_length := by
  refine ⟨rfl, ⟨1, 4294967295, .Opaque, 0, []⟩, ?_, ?_⟩
  · simp [overflowSubMeshResult]
  · decide

/-- Claim C1 (amended): for every successfully decoded Mesh, every sub-mesh
satisfies `start ≤ index_count` and
`(start + length) % 2^32 ≤ index_count` — the sum is the wrapping u32
addition the code performs, not the unbounded one; and a sub-mesh violating
either wrapped bound makes the whole loop fail with
`SubMeshIndexOutOfBounds` carrying the sub-mesh's 0-based ordinal, the
offending bound value (`start`, else the wrapped sum), and `index_count`.
The closed conjunct is the spec's scenario `start = 5`, `length = 10`,
`index_count = 12`, failing with offending value 15. -/
theorem claim_C1_amended :
    (∀ s m, build_stormworks_mesh s = .ok m →
      ∀ sm ∈ m.sub_meshes,
        sm.index_buffer_start ≤ m.index_count ∧
        (sm.index_buffer_start + sm.index_buffer_length) % 4294967296 ≤
          m.index_count) ∧
    (∀ ic i count s sm s₁,
      build_sub_mesh s = .ok (sm, s₁) →
      ¬ (sm.index_buffer_start ≤ ic ∧
         (sm.index_buffer_start + sm.index_buffer_length) % 4294967296 ≤ ic) →
      buildSubMeshesFrom ic (count + 1) i s = .error
        (.subMeshRangeOutOfBounds i
          (if sm.index_buffer_start > ic then sm.index_buffer_start
           else (sm.index_buffer_start + sm.index_buffer_length) % 4294967296)
          ic)) ∧
    build_sub_meshes rangeSubMeshRecord 1 12 =
      .error (.subMeshRangeOutOfBounds 0 15 12) := by
  refine ⟨?_, ?_, rfl⟩
  · intro s m h sm hsm
    exact (build_stormworks_mesh_ok_inv h).2.2.2.2.2.2.2.2 sm hsm
  · intro ic i count s sm s₁ h hviol
    exact buildSubMeshesFrom_err h hviol

/-- Claim C2: every index of a successfully decoded Mesh is strictly below
`vertex_count`; on success `build_indices` returns exactly `index_count`
values, position `j` being the little-endian u16 of stream bytes `2j`,
`2j + 1` (zero-extension is the identity on the value); the first position
`j` holding a value `≥ vertex_count` makes `build_indices` fail with
`IndexIndexOutOfBounds` carrying that 0-based position and `vertex_count`;
and the spec's scenario (one vertex, one index of value 1) fails with
`IndexIndexOutOfBounds 0 1`. -/
theorem claim_C2 :
    (∀ s m, build_stormworks_mesh s = .ok m →
      ∀ x ∈ m.indices, x < m.vertex_count) ∧
    (∀ s ic vc is r, build_indices s ic vc = .ok (is, r) →
      is.length = ic ∧
      (∀ j, j < ic →
        is.getD j 0 = u16le (s.getD (2 * j) 0) (s.getD (2 * j + 1) 0)) ∧
      ∀ x ∈ is, x < vc) ∧
    (∀ s ic vc j, j < ic → 2 * j + 2 ≤ s.length →
      (∀ k, k < j → u16le (s.getD (2 * k) 0) (s.getD (2 * k + 1) 0) < vc) →
      vc ≤ u16le (s.getD (2 * j) 0) (s.getD (2 * j + 1) 0) →
      build_indices s ic vc = .error (.indexOutOfRange j vc)) ∧
    build_stormworks_mesh badIndexInput =
      .error (.corruptFile (.indexOutOfRange 0 1)) := by
  refine ⟨?_, ?_, ?_, rfl⟩
  · intro s m h
    exact (build_stormworks_mesh_ok_inv h).2.2.2.2.2.1
  · intro s ic vc is r h
    obtain ⟨hlen, -, hmem, hpos⟩ := buildIndicesFrom_ok h
    exact ⟨hlen, hpos, hmem⟩
  · intro s ic vc j hj hl hk hge
    have h := @buildIndicesFrom_err vc j ic 0 s hj hl hk hge
    rw [Nat.zero_add] at h
    exact h

/-- Claim C3: `build_stormworks_mesh` reads the first 4 bytes; when they are
not exactly `"mesh"` it returns the distinct `NotMesh` outcome whatever the
remaining content; a successful decode implies the prefix was `"mesh"`; the
generic `CorruptFile` case only arises when the stream is shorter than 4
bytes (the magic read itself fails) or the magic matched; and the spec's
scenario `"mesx"` + 100 arbitrary bytes yields `NotMesh`. -/
theorem claim_C3 :
    (∀ s, 4 ≤ s.length → s.take 4 ≠ magicBytes →
      build_stormworks_mesh s = .error .notMesh) ∧
    (∀ s m, build_stormworks_mesh s = .ok m → s.take 4 = magicBytes) ∧
    (∀ s e, build_stormworks_mesh s = .error (.corruptFile e) →
      s.length < 4 ∨ s.take 4 = magicBytes) ∧
    build_stormworks_mesh mesxInput = .error .notMesh := by
  refine ⟨?_, ?_, ?_, rfl⟩
  · intro s hlen hmagic
    exact build_stormworks_mesh_not_mesh hlen hmagic
  · intro s m h
    exact (build_stormworks_mesh_ok_inv h).1
  · intro s e h
    exact build_stormworks_mesh_corrupt_inv h

/-- Claim C4: a successful decode returns exactly `vertex_count` vertices,
`index_count` indices and `sub_mesh_count` sub-meshes, the three counts
being the header scalars read from the stream — `vertex_count` the u16 at
bytes 8–9, `index_count` the u32 right after the vertex records,
`sub_mesh_count` the u16 right after the index buffer; and the all-zero
header input decodes to the Mesh with empty lists. -/
theorem claim_C4 :
    (∀ s m, build_stormworks_mesh s = .ok m →
      m.vertices.length = m.vertex_count ∧
      m.indices.length = m.index_count ∧
      m.sub_meshes.length = m.sub_mesh_count ∧
      m.vertex_count = u16le (s.getD 8 0) (s.getD 9 0) ∧
      m.index_count = u32le (s.getD (14 + 28 * m.vertex_count) 0)
        (s.getD (14 + 28 * m.vertex_count + 1) 0)
        (s.getD (14 + 28 * m.vertex_count + 2) 0)
        (s.getD (14 + 28 * m.vertex_count + 3) 0) ∧
      m.sub_mesh_count =
        u16le (s.getD (14 + 28 * m.vertex_count + 4 + 2 * m.index_count) 0)
          (s.getD (14 + 28 * m.vertex_count + 4 + 2 * m.index_count + 1) 0)) ∧
    build_stormworks_mesh emptyMeshInput = .ok ⟨0, [], 0, [], 0, []⟩ := by
  refine ⟨?_, rfl⟩
  intro s m h
  obtain ⟨-, h2, h3, h4, h5, -, h7, h8, -⟩ := build_stormworks_mesh_ok_inv h
  exact ⟨h3, h5, h8, h2, h4, h7⟩

/-- Claim C5: `StormworksShaderType::from_u16` maps the raw values
0, 1, 2, 3 to Opaque, Transparent, Emissive, Lava and rejects every other
value with `InvalidStormworksShaderType` carrying the raw value; a sub-mesh
whose raw shader field (bytes 10–11) is outside the range makes
`build_sub_mesh` fail with that error; a successful `build_sub_mesh` implies
the raw value was one of 0–3 and was mapped by `from_u16`; and the spec's
scenario with raw value 9 fails with `InvalidStormworksShaderType 9`. -/
theorem claim_C5 :
    StormworksShaderType.from_u16 0 = .ok .Opaque ∧
    StormworksShaderType.from_u16 1 = .ok .Transparent ∧
    StormworksShaderType.from_u16 2 = .ok .Emissive ∧
    StormworksShaderType.from_u16 3 = .ok .Lava ∧
    (∀ r, 4 ≤ r →
      StormworksShaderType.from_u16 r = .error (.unknownShaderType r)) ∧
    (∀ s, 12 ≤ s.length → 4 ≤ u16le (s.getD 10 0) (s.getD 11 0) →
      build_sub_mesh s =
        .error (.unknownShaderType (u16le (s.getD 10 0) (s.getD 11 0)))) ∧
    (∀ s sm r, build_sub_mesh s = .ok (sm, r) →
      StormworksShaderType.from_u16 (u16le (s.getD 10 0) (s.getD 11 0)) =
        .ok sm.shader_id ∧
      u16le (s.getD 10 0) (s.getD 11 0) < 4) ∧
    build_sub_mesh shader9Record = .error (.unknownShaderType 9) := by
  refine ⟨rfl, rfl, rfl, rfl, ?_, ?_, ?_, rfl⟩
  · intro r hr
    exact from_u16_err hr
  · intro s hlen hraw
    exact build_sub_mesh_shader_err hraw hlen
  · intro s sm r h
    obtain ⟨hsh, -, -⟩ := build_sub_mesh_ok_inv h
    exact ⟨hsh, from_u16_ok_lt hsh⟩

set_option maxRecDepth 10000 in
/-- Claim C6: a declared `name_length_bytes` above 1000 (the u16 at record
bytes 38–39) makes `build_sub_mesh` fail with `TooBigNameLength` as soon as
the 40-byte fixed prefix is present — no name byte is required or consumed,
as the 40-byte `nameTooLongRecord` conjunct shows; a value `≤ 1000`
(including exactly 1000, as the `name1000Record` conjunct shows) is
accepted, exactly that many raw bytes are then read and UTF-8-decoded, and
invalid UTF-8 fails with the text-decode error. -/
theorem claim_C6 :
    (∀ s (sh : StormworksShaderType),
      StormworksShaderType.from_u16 (u16le (s.getD 10 0) (s.getD 11 0)) =
        .ok sh →
      40 ≤ s.length → 1000 < u16le (s.getD 38 0) (s.getD 39 0) →
      build_sub_mesh s = .error .nameTooLong) ∧
    (∀ s sh n,
      StormworksShaderType.from_u16 (u16le (s.getD 10 0) (s.getD 11 0)) =
        .ok sh →
      n = u16le (s.getD 38 0) (s.getD 39 0) →
      n ≤ 1000 → 40 + n ≤ s.length →
      (validUtf8 ((s.drop 40).take n) = true →
        ∃ r, build_sub_mesh s = .ok
          (⟨u32le (s.getD 0 0) (s.getD 1 0) (s.getD 2 0) (s.getD 3 0),
            u32le (s.getD 4 0) (s.getD 5 0) (s.getD 6 0) (s.getD 7 0),
            sh, n, (s.drop 40).take n⟩, r) ∧
          ((s.drop 40).take n).length = n) ∧
      (validUtf8 ((s.drop 40).take n) = false →
        build_sub_mesh s = .error .textDecodeFailure)) ∧
    build_sub_mesh nameTooLongRecord = .error .nameTooLong ∧
    build_sub_mesh name1000Record =
      .ok (⟨0, 0, .Opaque, 1000, List.replicate 1000 97⟩, []) ∧
    build_sub_mesh badUtf8Record = .error .textDecodeFailure := by
  refine ⟨?_, ?_, rfl, ?_, rfl⟩
  · intro s sh hsh hlen hn
    exact build_sub_mesh_name_too_long hsh hn hlen
  · intro s sh n hsh hn hcap hlen
    subst hn
    refine ⟨fun hutf => ⟨_, build_sub_mesh_eq hsh hcap hlen hutf, ?_⟩,
      fun hutf => build_sub_mesh_utf8_err hsh hcap hlen hutf⟩
    simp only [List.length_take, List.length_drop]
    omega
  · rfl

/-- Claim C7: under the record-level preconditions (in-range shader raw
value, name length cap respected, enough bytes, valid UTF-8 name),
`build_sub_mesh` returns `index_buffer_start` as the u32 of bytes 0–3 and
`index_buffer_length` directly as the u32 of bytes 4–7 (not an end offset
minus the start), the shader raw u16 at bytes 10–11 (after a 2-byte skip),
`name_length_bytes` at bytes 38–39 (after a 26-byte skip), the name as bytes
40 to 40+n, and consumes exactly `52 + n` bytes (a 12-byte skip after the
name), in that fixed order. -/
theorem claim_C7 (s : List Nat) (sh : StormworksShaderType) (n : Nat)
    (hn : n = u16le (s.getD 38 0) (s.getD 39 0))
    (hsh : StormworksShaderType.from_u16 (u16le (s.getD 10 0) (s.getD 11 0)) =
      .ok sh)
    (hcap : n ≤ 1000)
    (hlen : 40 + n ≤ s.length)
    (hutf : validUtf8 ((s.drop 40).take n) = true) :
    build_sub_mesh s = .ok
      (⟨u32le (s.getD 0 0) (s.getD 1 0) (s.getD 2 0) (s.getD 3 0),
        u32le (s.getD 4 0) (s.getD 5 0) (s.getD 6 0) (s.getD 7 0),
        sh, n, (s.drop 40).take n⟩,
       s.drop (52 + n)) := by
  subst hn
  exact build_sub_mesh_eq hsh hcap hlen hutf

/-- Claim C7 witness: the record `lengthNotEndRecord` with `start = 5` and
second u32 field 7 decodes to `index_buffer_length = 7` (an end-offset
interpretation would give `7 - 5 = 2`), with shader Transparent and the
3-byte name `"abc"`. -/
theorem claim_C7_witness :
    build_sub_mesh lengthNotEndRecord =
      .ok (⟨5, 7, .Transparent, 3, [97, 98, 99]⟩, []) := by
  have h := claim_C7 lengthNotEndRecord .Transparent 3 rfl rfl
    (by decide) (by decide) rfl
  exact h

/-- Claim C8: the blocking and suspending decode paths are extensionally
identical — on every byte stream `async_build_stormworks_mesh` returns
exactly what `build_stormworks_mesh` returns, so both succeed with equal
Mesh values (all six fields equal) or fail with the same error. -/
theorem claim_C8 :
    ∀ s, async_build_stormworks_mesh s = build_stormworks_mesh s := by
  intro s
  unfold async_build_stormworks_mesh build_stormworks_mesh
  rw [async_read_u16_from_eq, async_read_u32_from_eq, async_build_vertices_eq,
    async_build_indices_eq, async_build_sub_meshes_eq]

/-- Claim C9: on any stream holding at least 28 bytes, `build_vertex_record`
succeeds, consumes exactly the 28-byte block (the rest is `s.drop 28`, read
once), and decodes it positionally — bytes 0–11 as the three little-endian
`f32` position bit patterns, bytes 12–15 as the RGBA bytes, bytes 16–27 as
the three `f32` normal bit patterns — with no validation of any value (NaN
patterns included, as the witness shows). -/
theorem claim_C9 (s : List Nat) (h : 28 ≤ s.length) :
    build_vertex_record s = .ok
      (⟨⟨u32le (s.getD 0 0) (s.getD 1 0) (s.getD 2 0) (s.getD 3 0),
         u32le (s.getD 4 0) (s.getD 5 0) (s.getD 6 0) (s.getD 7 0),
         u32le (s.getD 8 0) (s.getD 9 0) (s.getD 10 0) (s.getD 11 0)⟩,
        ⟨s.getD 12 0, s.getD 13 0, s.getD 14 0, s.getD 15 0⟩,
        ⟨u32le (s.getD 16 0) (s.getD 17 0) (s.getD 18 0) (s.getD 19 0),
         u32le (s.getD 20 0) (s.getD 21 0) (s.getD 22 0) (s.getD 23 0),
         u32le (s.getD 24 0) (s.getD 25 0) (s.getD 26 0) (s.getD 27 0)⟩⟩,
       s.drop 28) :=
  build_vertex_record_eq h

/-- Claim C9 witness: the 28-byte block `nanVertexRecord`, whose position-x
and normal-z fields hold the `f32` NaN bit pattern `0x7FC00000 =
2143289344`, decodes successfully. -/
theorem claim_C9_witness :
    build_vertex_record nanVertexRecord = .ok
      (⟨⟨2143289344, 0, 0⟩, ⟨1, 2, 3, 4⟩, ⟨0, 0, 2143289344⟩⟩, []) := by
  have h := claim_C9 nanVertexRecord (by decide)
  exact h

/-- Claim C10: a header declaring `vertex_count = 0` (the u16 at bytes 8–9)
and `index_count > 0` (the u32 at bytes 14–17), with at least the 20 bytes
needed to reach and read the first index, always fails with
`IndexIndexOutOfBounds` at position 0 against the bound 0 — every
zero-extended u16 is `≥ 0`. -/
theorem claim_C10 (s : List Nat)
    (hmagic : s.take 4 = magicBytes)
    (hlen : 20 ≤ s.length)
    (hvc : u16le (s.getD 8 0) (s.getD 9 0) = 0)
    (hic : 0 < u32le (s.getD 14 0) (s.getD 15 0) (s.getD 16 0) (s.getD 17 0)) :
    build_stormworks_mesh s = .error (.corruptFile (.indexOutOfRange 0 0)) := by
  have st0 : readExact 4 s = .ok (s.take 4, s.drop 4) := by
    unfold readExact
    rw [if_pos (by omega)]
  have st1 : read_u16_from (seek_forward 4 (s.drop 4)) =
      .ok (u16le (s.getD 8 0) (s.getD 9 0), s.drop 10) := by
    show read_u16_from ((s.drop 4).drop 4) = _
    rw [List.drop_drop]
    have h := read_u16_step (s := s) (k := 8) (m := 20) (by omega) (by omega)
    simp only [Nat.reduceAdd] at h
    exact h
  have st2 : build_vertices (seek_forward 4 (s.drop 10)) 0 =
      .ok ([], s.drop 14) := by
    show build_vertices ((s.drop 10).drop 4) 0 = _
    rw [List.drop_drop]
    simp only [Nat.reduceAdd]
    rfl
  have st3 : read_u32_from (s.drop 14) = .ok
      (u32le (s.getD 14 0) (s.getD 15 0) (s.getD 16 0) (s.getD 17 0),
       s.drop 18) := by
    have h := read_u32_step (s := s) (k := 14) (m := 20) (by omega) (by omega)
    simp only [Nat.reduceAdd] at h
    exact h
  have st4 : read_u16_from (s.drop 18) =
      .ok (u16le (s.getD 18 0) (s.getD 19 0), s.drop 20) := by
    have h := read_u16_step (s := s) (k := 18) (m := 20) (by omega) (by omega)
    simp only [Nat.reduceAdd] at h
    exact h
  obtain ⟨c, hc⟩ : ∃ c,
      u32le (s.getD 14 0) (s.getD 15 0) (s.getD 16 0) (s.getD 17 0) = c + 1 :=
    ⟨u32le (s.getD 14 0) (s.getD 15 0) (s.getD 16 0) (s.getD 17 0) - 1,
     by omega⟩
  unfold build_stormworks_mesh
  rw [st0]
  dsimp only
  rw [if_neg (not_not_intro hmagic)]
  rw [st1]
  dsimp only
  rw [hvc, st2]
  dsimp only
  rw [st3]
  dsimp only
  rw [hc]
  unfold build_indices buildIndicesFrom
  rw [st4]
  dsimp only
  rw [if_pos (Nat.zero_le _)]

/-- Claim C10 witness: the 20-byte `zeroVertexInput` (valid magic,
`vertex_count = 0`, `index_count = 1`, first index present) fails with
`IndexIndexOutOfBounds 0 0`. -/
theorem claim_C10_witness :
    build_stormworks_mesh zeroVertexInput =
      .error (.corruptFile (.indexOutOfRange 0 0)) := by
  have h := claim_C10 zeroVertexInput (by decide) (by decide) (by decide)
    (by decide)
  exact h

end StormworksMeshUtils
